import Mathlib

/-! Verification of the crop-mask export scheduler (src/ETL/ee_exporter.py and
src/ETL/cloudfree/utils.py) against its natural-language specification.

Modelling conventions:
* Dates are modelled by a calendar record `Date`; arithmetic and comparison on
  Python `datetime.date` values are carried out on the proleptic-Gregorian
  epoch-day number `Date.toDays` (Python date comparison and `timedelta(days=n)`
  addition coincide with `Int` order and addition on epoch days).
* Coordinates are modelled as exact rationals; Python `round(x, 4)` is
  round-half-to-even at four decimal places, and the `f`-string rendering of
  the rounded float is modelled as its exact shortest decimal form
  (trailing zeros removed, a lone `.0` kept), which is what `repr` prints for
  these four-decimal values in the coordinate range.
* The remote Earth Engine service is not executed: remote interactions are
  recorded as `RemoteCall` events, Python exceptions as a `Res` error value,
  and the non-terminating window loop is given explicit fuel, `none` standing
  for divergence at every fuel bound.
-/

namespace CropMask

/-! Section: Calendar dates -/

/-- Calendar date, as Python `datetime.date`. -/
structure Date where
  year : Int
  month : Int
  day : Int
deriving DecidableEq, Repr

/-- Days since 1970-01-01 in the proleptic Gregorian calendar
(standard civil-from-days algorithm); Python date order and
`timedelta` addition agree with `Int` order and addition on this value. -/
def Date.toDays (d : Date) : Int :=
  let y : Int := if d.month ≤ 2 then d.year - 1 else d.year
  let era : Int := (if 0 ≤ y then y else y - 399) / 400
  let yoe : Int := y - era * 400
  let doy : Int := (153 * (if 2 < d.month then d.month - 3 else d.month + 9) + 2) / 5 + d.day - 1
  let doe : Int := yoe * 365 + yoe / 4 - yoe / 100 + doy
  era * 146097 + doe - 719468

/-! Section: Time-window generation

`EarthEngineExporter._export_for_polygon` (ee_exporter.py lines 117-124) runs

    cur_date = start_date
    while (cur_date + increment) <= end_date:
        append window [cur_date, cur_date + increment)
        cur_date += increment

over dates; we embed it over epoch days with explicit fuel so that the
loop body is translated verbatim and non-termination (which the Python
loop exhibits when the increment is not positive) is observable as `none`
for every fuel bound. -/

/-- Fuel-indexed translation of the window loop; `none` means the loop has
not finished within the given fuel. -/
def windowsLoop : Nat → Int → Int → Int → Option (List (Int × Int))
  | 0, _, _, _ => none
  | Nat.succ fuel, cur, endD, step =>
    if cur + step ≤ endD then
      (windowsLoop fuel (cur + step) endD step).map (fun ws => (cur, cur + step) :: ws)
    else
      some []

/-- The window sequence of the source loop, run with enough fuel for any
positive step. -/
def windows (s e step : Int) : Option (List (Int × Int)) :=
  windowsLoop ((e - s).toNat + 1) s e step

/-- Number of windows the loop emits for a positive step. -/
def numWindows (s e step : Int) : Nat :=
  ((e - s) / step).toNat

/-- Closed form of the emitted windows: the i-th window is
[s + i*step, s + (i+1)*step). -/
def windowList (s step : Int) (n : Nat) : List (Int × Int) :=
  (List.range n).map (fun (i : Nat) => (s + (i : Int) * step, s + ((i : Int) + 1) * step))

theorem windowList_succ (s step : Int) (n : Nat) :
    windowList s step (n + 1) = (s, s + step) :: windowList (s + step) step n := by
  unfold windowList
  rw [List.range_succ_eq_map, List.map_cons, List.map_map]
  refine congrArg₂ List.cons (by push_cast; ring_nf) ?_
  refine List.map_congr_left (fun i _ => ?_)
  simp only [Function.comp_apply]
  push_cast
  refine Prod.ext ?_ ?_ <;> simp <;> ring

theorem numWindows_succ {s e step : Int} (hstep : 0 < step) (h : s + step ≤ e) :
    numWindows s e step = numWindows (s + step) e step + 1 := by
  unfold numWindows
  have h1 : e - s = (e - (s + step)) + 1 * step := by ring
  rw [h1, Int.add_mul_ediv_right _ _ (ne_of_gt hstep)]
  have h2 : 0 ≤ (e - (s + step)) / step := Int.ediv_nonneg (by omega) (le_of_lt hstep)
  omega

theorem numWindows_zero {s e step : Int} (hstep : 0 < step) (h : ¬ s + step ≤ e) :
    numWindows s e step = 0 := by
  unfold numWindows
  have h1 : (e - s) / step < 1 := (Int.ediv_lt_iff_lt_mul hstep).mpr (by omega)
  omega

theorem windowsLoop_closed (e step : Int) (hstep : 0 < step) :
    ∀ fuel : Nat, ∀ s : Int, (e - s).toNat < fuel →
      windowsLoop fuel s e step = some (windowList s step (numWindows s e step)) := by
  intro fuel
  induction fuel with
  | zero => intro s h; exact absurd h (Nat.not_lt_zero _)
  | succ n ih =>
    intro s h
    by_cases hc : s + step ≤ e
    · have hrec := ih (s + step) (by omega)
      rw [windowsLoop, if_pos hc, hrec, Option.map_some']
      rw [numWindows_succ hstep hc, windowList_succ]
    · rw [windowsLoop, if_neg hc, numWindows_zero hstep hc]
      rfl

/-! Section: Decimal rendering of rounded coordinates

`LabelExporter._generate_filename_and_desc` (ee_exporter.py lines 221-239)
interpolates `round(coordinate, 4)` into an f-string.  Python `round` is
round-half-to-even; the rounded value is rendered in its shortest decimal
form with at least one fractional digit (the float `repr`).  We model the
rounded value as a scaled integer (the numerator over 10000). -/

/-- Round-half-to-even of the fraction n/d (d positive): Euclidean division
gives the floor and a nonnegative remainder r with n/d = f + r/d, and the
remainder is compared against one half. -/
def roundHalfEvenScaled (n : Int) (d : Nat) : Int :=
  let f : Int := n / (d : Int)
  let r : Int := n % (d : Int)
  if 2 * r < (d : Int) then f
  else if (d : Int) < 2 * r then f + 1
  else if f % 2 = 0 then f else f + 1

/-- Python `round(q, 4)`, returned as the scaled integer `round(q * 10000)`:
`q * 10000` is exactly the fraction `(q.num * 10000) / q.den`, so the rounding
is carried out on that fraction without rational normalization. -/
def round4 (q : ℚ) : Int := roundHalfEvenScaled (q.num * 10000) q.den

/-- Truncation of q to 4 decimal places, as the scaled integer
`floor(q * 10000)`: two nonnegative coordinates agree in every decimal digit
up to and including the fourth place exactly when this value agrees. -/
def floorScaled4 (q : ℚ) : Int := (q.num * 10000) / (q.den : Int)

theorem floorScaled4_eq (q : ℚ) : floorScaled4 q = ⌊(q * 10000 : ℚ)⌋ := by
  unfold floorScaled4
  rw [← Rat.floor_intCast_div_natCast (q.num * 10000) q.den]
  congr 1
  have hden : (q.den : ℚ) ≠ 0 := Nat.cast_ne_zero.mpr q.den_nz
  have h : (q.num : ℚ) = q * (q.den : ℚ) := (div_eq_iff hden).mp (Rat.num_div_den q)
  push_cast
  rw [div_eq_iff hden, h]
  ring

def digitChar (n : Nat) : Char := Char.ofNat (48 + n % 10)

def natDigitsAux : Nat → Nat → List Char
  | 0, _ => []
  | fuel + 1, n => if n < 10 then [digitChar n] else natDigitsAux fuel (n / 10) ++ [digitChar (n % 10)]

def natToStr (n : Nat) : String := String.mk (natDigitsAux (n + 1) n)

def trimTrailingZeros (l : List Nat) : List Nat :=
  (l.reverse.dropWhile (fun d => d == 0)).reverse

/-- Decimal rendering of the nonnegative scaled value m/10000: integer part,
then the fractional digits with trailing zeros removed, `.0` if none remain. -/
def formatScaledNat (m : Nat) : String :=
  let ip := m / 10000
  let fp := m % 10000
  let digits := [fp / 1000, fp / 100 % 10, fp / 10 % 10, fp % 10]
  let trimmed := trimTrailingZeros digits
  if trimmed.isEmpty then natToStr ip ++ ".0"
  else natToStr ip ++ "." ++ String.mk (trimmed.map digitChar)

/-- Rendering of the scaled value n/10000 as Python prints the rounded float. -/
def formatScaled (n : Int) : String :=
  if n < 0 then "-" ++ formatScaledNat (-n).toNat else formatScaledNat n.toNat

def pad2 (n : Int) : String :=
  if n < 10 then "0" ++ natToStr n.toNat else natToStr n.toNat

def pad4 (n : Int) : String :=
  if n < 10 then "000" ++ natToStr n.toNat
  else if n < 100 then "00" ++ natToStr n.toNat
  else if n < 1000 then "0" ++ natToStr n.toNat
  else natToStr n.toNat

/-- Python `str(date)`: ISO `YYYY-MM-DD` with zero padding. -/
def dateStr (d : Date) : String :=
  pad4 d.year ++ "-" ++ pad2 d.month ++ "-" ++ pad2 d.day

/-! Section: Filename and description generation -/

/-- Geographic bounding box (src/ETL/ee_boundingbox.py BoundingBox values as
consumed by `_generate_filename_and_desc`); coordinates as exact rationals. -/
structure BBox where
  min_lat : ℚ
  max_lat : ℚ
  min_lon : ℚ
  max_lon : ℚ
deriving DecidableEq

/-- Python `str.replace` for a single-character pattern. -/
def replaceChar (c r : Char) (s : String) : String :=
  String.mk (s.data.map (fun a => if a = c then r else a))

/-- Removal of every occurrence of a character (the behaviour the spec words
"stripped" describe). -/
def stripChar (c : Char) (s : String) : String :=
  String.mk (s.data.filter (fun a => a != c))

/-- Python slicing `s[:n]` by code points. -/
def strTake (n : Nat) (s : String) : String := String.mk (s.data.take n)

/-- `LabelExporter._generate_filename_and_desc` (ee_exporter.py lines 221-239):
rounds the four coordinates to 4 decimal places, interpolates them and the two
ISO dates into the filename template, and derives the task description by
replacing `.` and `=` with `-` and truncating to 100 characters. -/
def generate_filename_and_desc (bbox : BBox) (start_date end_date : Date) : String × String :=
  let min_lat := round4 bbox.min_lat
  let min_lon := round4 bbox.min_lon
  let max_lat := round4 bbox.max_lat
  let max_lon := round4 bbox.max_lon
  let filename :=
    "min_lat=" ++ formatScaled min_lat ++ "_min_lon=" ++ formatScaled min_lon ++
    "_max_lat=" ++ formatScaled max_lat ++ "_max_lon=" ++ formatScaled max_lon ++
    "_dates=" ++ dateStr start_date ++ "_" ++ dateStr end_date
  let description := strTake 100 (replaceChar '=' '-' (replaceChar '.' '-' filename))
  (filename, description)

/-- The identifier template exactly as the specification words it:
`min_lat={v}_min_lon={v}_max_lat={v}_max_lon={v}_dates={start}_{end}` with each
coordinate rounded to 4 decimal places and dates as `YYYY-MM-DD`. -/
def specIdentifier (bbox : BBox) (start_date end_date : Date) : String :=
  "min_lat=" ++ formatScaled (round4 bbox.min_lat) ++
  "_min_lon=" ++ formatScaled (round4 bbox.min_lon) ++
  "_max_lat=" ++ formatScaled (round4 bbox.max_lat) ++
  "_max_lon=" ++ formatScaled (round4 bbox.max_lon) ++
  "_dates=" ++ dateStr start_date ++ "_" ++ dateStr end_date

/-- The description as the specification words it: the identifier with the
characters `.` and `=` stripped (removed) and the result truncated to 100
characters. -/
def specDescStripped (bbox : BBox) (start_date end_date : Date) : String :=
  strTake 100 (stripChar '=' (stripChar '.' (specIdentifier bbox start_date end_date)))

/-! Section: The ledger snapshot -/

/-- One remote Earth Engine task as returned by `ee.data.getTaskList()`. -/
structure EETask where
  description : String
  state : String
deriving DecidableEq

/-- `get_ee_task_list` (ee_exporter.py lines 42-50): the descriptions of every
task whose state is not `COMPLETED`. -/
def get_ee_task_list (tasks : List EETask) : List String :=
  (tasks.filter (fun t => t.state != "COMPLETED")).map (fun t => t.description)

/-- The pending-jobs set as the specification words it: identifiers of tasks
currently queued (`READY`) or running (`RUNNING`) in the remote service. -/
def specPendingJobs (tasks : List EETask) : List String :=
  (tasks.filter (fun t => t.state == "READY" || t.state == "RUNNING")).map
    (fun t => t.description)

/-- State of a `LabelExporter` after `__post_init__` (ee_exporter.py lines
201-219): configuration flags plus the two memoized remote listings. -/
structure ExporterCfg where
  dest_bucket : String
  check_gcp : Bool
  check_ee : Bool
  days_per_timestep : Int
  cloud_tif_list : List String
  ee_task_list : List String
deriving DecidableEq

/-- `LabelExporter.__post_init__`: the storage listing is fetched only when
`check_gcp` is set and the task listing only when `check_ee` is set. -/
def labelExporterInit (dest_bucket : String) (check_gcp check_ee : Bool)
    (days_per_timestep : Int) (gcpList : List String) (eeTasks : List EETask) : ExporterCfg :=
  ⟨dest_bucket, check_gcp, check_ee, days_per_timestep,
    if check_gcp then gcpList else [],
    if check_ee then get_ee_task_list eeTasks else []⟩

/-- The storage (existing-output) check, ee_exporter.py line 252:
`check_gcp and f"tifs/{file_name}.tif" in self.cloud_tif_list`. -/
def existsCheck (cfg : ExporterCfg) (filename : String) : Bool :=
  cfg.check_gcp && cfg.cloud_tif_list.contains ("tifs/" ++ filename ++ ".tif")

/-- The pending-job check, ee_exporter.py line 255:
`check_ee and description in self.ee_task_list`. -/
def pendingCheck (cfg : ExporterCfg) (description : String) : Bool :=
  cfg.check_ee && cfg.ee_task_list.contains description

/-- The capacity check, ee_exporter.py line 258:
`check_ee and len(self.ee_task_list) >= 3000`. -/
def capacityCheck (cfg : ExporterCfg) : Bool :=
  cfg.check_ee && decide (3000 ≤ cfg.ee_task_list.length)

/-! Section: The per-request export pipeline -/

/-- Errors of the error-handling taxonomy that the embedded code can raise. -/
inductive ExportError
  | invalidDateRange
  | authenticationRequired
deriving DecidableEq

/-- Result of a computation that may raise: a Python exception or a value. -/
inductive Res (α : Type)
  | ok (val : α)
  | error (err : ExportError)
deriving DecidableEq

def Res.map {α β : Type} (f : α → β) : Res α → Res β
  | Res.ok v => Res.ok (f v)
  | Res.error e => Res.error e

/-- Remote interactions recorded by the embedding: requesting one cloud-free
composite for a window, and submitting the combined export. -/
inductive RemoteCall
  | composite (startDay endDay : Int)
  | submit (description : String)
deriving DecidableEq

/-- The outcome vocabulary of the specification for one request. -/
inductive Outcome
  | skippedExists
  | skippedPending
  | skippedQuotaCapped
  | submitted
deriving DecidableEq

/-- The boolean the source actually returns for each outcome
(ee_exporter.py lines 252-269: `False` only for the existing-output skip). -/
def outcomeBool : Outcome → Bool
  | Outcome.skippedExists => false
  | _ => true

/-- `EarthEngineExporter._export_for_polygon` (ee_exporter.py lines 100-138):
raise if the end date is in the future; otherwise run the window loop,
request one composite per window (the fast and thorough strategies both
reduce to the `composite` event here) and submit the combined image.
`none` models divergence of the window loop. -/
def exportForPolygon (today startD endD : Date) (step : Int) (description : String) :
    Option (List RemoteCall × Res Unit) :=
  if today.toDays < endD.toDays then
    some ([], Res.error ExportError.invalidDateRange)
  else
    match windows startD.toDays endD.toDays step with
    | none => none
    | some ws =>
        some ((ws.map (fun w => RemoteCall.composite w.1 w.2)) ++
                [RemoteCall.submit description],
              Res.ok ())

/-- `LabelExporter._export_using_point_and_dates` (ee_exporter.py lines
241-269), with the bounding box already derived from the labelled point:
the ledger checks in source order, then submission via
`_export_for_polygon`.  The result pairs the recorded remote calls with the
outcome (or error). -/
def exportUsingPointAndDates (cfg : ExporterCfg) (today : Date) (bbox : BBox)
    (start_date end_date : Date) : Option (List RemoteCall × Res Outcome) :=
  let fd := generate_filename_and_desc bbox start_date end_date
  if existsCheck cfg fd.1 then some ([], Res.ok Outcome.skippedExists)
  else if pendingCheck cfg fd.2 then some ([], Res.ok Outcome.skippedPending)
  else if capacityCheck cfg then some ([], Res.ok Outcome.skippedQuotaCapped)
  else
    (exportForPolygon today start_date end_date cfg.days_per_timestep fd.2).map
      (fun r => (r.1, r.2.map (fun _ => Outcome.submitted)))

/-! Section: Authentication and the run loop -/

/-- Log events the embedded code can emit. -/
inductive LogEvent
  | authError
deriving DecidableEq

/-- `ee.Initialize()`: raises when the credentials are absent or invalid. -/
def eeInit (authOk : Bool) : Res Unit :=
  if authOk then Res.ok () else Res.error ExportError.authenticationRequired

/-- `EarthEngineExporter.check_earthengine_auth` (ee_exporter.py lines 74-83):
the initialization exception is caught and converted into a log message;
nothing is re-raised. -/
def check_earthengine_auth (authOk : Bool) : List LogEvent :=
  match eeInit authOk with
  | Res.ok _ => []
  | Res.error _ => [LogEvent.authError]

/-- One `LabelExporter` scheduling run: `__post_init__` checks authentication,
then `export` processes every labelled request in order
(ee_exporter.py lines 216-219 and 271-290). -/
def labelExporterRun (authOk : Bool) (cfg : ExporterCfg) (today : Date)
    (reqs : List (BBox × Date × Date)) :
    List LogEvent × List (Option (List RemoteCall × Res Outcome)) :=
  (check_earthengine_auth authOk,
   reqs.map (fun r => exportUsingPointAndDates cfg today r.1 r.2.1 r.2.2))

/-! Section: Band combination -/

/-- `ee.Image.select(BANDS)`: the requested bands, in the requested order,
of an image (modelled by its band-name list). -/
def eeSelect (bands img : List String) : List String :=
  bands.filter (fun b => img.contains b)

/-- `combine_bands` (cloudfree/utils.py lines 14-26): select the fixed band
set of the current image and append it to the accumulated image, or start
from the current image when the accumulator is still `None`. -/
def combine_bands (bands : List String) (current : List String)
    (previous : Option (List String)) : List String :=
  match previous with
  | none => eeSelect bands current
  | some p => p ++ eeSelect bands current

/-- `imcoll.iterate(cloudfree.combine_bands)` (ee_exporter.py lines 126-128):
a left fold over the per-window mosaics starting from `None`. -/
def iterateCombine (bands : List String) (imgs : List (List String)) :
    Option (List String) :=
  imgs.foldl (fun prev current => some (combine_bands bands current prev)) none

/-! Section: Shared helper lemmas -/

theorem eeSelect_all (bands img : List String) (h : ∀ b ∈ bands, b ∈ img) :
    eeSelect bands img = bands := by
  unfold eeSelect
  apply List.filter_eq_self.mpr
  intro b hb
  simpa [List.contains] using h b hb

theorem foldl_combine (bands : List String) (imgs : List (List String)) :
    ∀ p : List String, (∀ img ∈ imgs, ∀ b ∈ bands, b ∈ img) →
      imgs.foldl (fun prev current => some (combine_bands bands current prev)) (some p) =
        some (p ++ (List.replicate imgs.length bands).flatten) := by
  induction imgs with
  | nil => intro p _; simp
  | cons hd tl ih =>
    intro p hall
    have hsel : eeSelect bands hd = bands := eeSelect_all bands hd (hall hd (by simp))
    simp only [List.foldl_cons]
    rw [show combine_bands bands hd (some p) = p ++ bands from by simp [combine_bands, hsel]]
    rw [ih (p ++ bands) (fun img h => hall img (by simp [h]))]
    simp [List.replicate_succ, List.append_assoc]

/-! Section: Claims -/

/-- Claim C2: for every positive days-per-step, the window loop terminates and
emits exactly the windows [s + i*step, s + (i+1)*step) for i below
floor((e-s)/step): windows are generated greedily from the start, one is
emitted exactly while its end stays at or before the end date, and a trailing
period shorter than the step is dropped entirely rather than truncated. -/
theorem windows_closed_form (s e step : Int) (hstep : 0 < step) :
    windows s e step = some (windowList s step (numWindows s e step)) := by
  unfold windows
  exact windowsLoop_closed e step hstep _ s (Nat.lt_succ_self _)

/-- Witness for windows_closed_form: the example of the specification,
windows(2021-01-01, 2021-01-25, 10) = [01-01, 01-11), [01-11, 01-21),
the trailing 4 days dropped. -/
theorem windows_closed_form_witness :
    windows (Date.toDays ⟨2021, 1, 1⟩) (Date.toDays ⟨2021, 1, 25⟩) 10 =
      some [(Date.toDays ⟨2021, 1, 1⟩, Date.toDays ⟨2021, 1, 11⟩),
            (Date.toDays ⟨2021, 1, 11⟩, Date.toDays ⟨2021, 1, 21⟩)] := by
  rw [windows_closed_form _ _ _ (by decide)]
  decide

/-- Claim C5 counterexample: with end date before the start date and a positive
step, the source loop raises nothing and simply produces the empty window
sequence, contradicting the claim that generation fails with InvalidParameter
for such inputs. -/
theorem windows_reversed_range_empty :
    windows 5 3 10 = some [] ∧ (3 : Int) < 5 ∧ (0 : Int) < 10 := by decide

/-- Claim C5 as amended: the source performs no parameter validation at all.
With a positive step and end at or before start the loop terminates at once
with the empty window sequence, and with a non-positive step and start at or
before end the loop never terminates (no fuel bound suffices), rather than
failing with InvalidParameter in either case. -/
theorem windows_without_validation :
    (∀ s e step : Int, 0 < step → e ≤ s → windows s e step = some []) ∧
    (∀ (fuel : Nat) (s e step : Int), step ≤ 0 → s ≤ e → windowsLoop fuel s e step = none) := by
  constructor
  · intro s e step hstep h
    unfold windows
    have h0 : (e - s).toNat = 0 := by omega
    rw [h0]
    show windowsLoop 1 s e step = some []
    rw [windowsLoop, if_neg (by omega)]
  · intro fuel s e step hstep
    induction fuel generalizing s with
    | zero => intro _; rfl
    | succ n ih =>
      intro h
      rw [windowsLoop, if_pos (by omega), ih (s + step) (by omega)]
      rfl

/-- Witness for windows_without_validation at concrete inputs. -/
theorem windows_without_validation_witness :
    windows 9 2 4 = some [] ∧ windowsLoop 7 0 5 0 = none :=
  ⟨windows_without_validation.1 9 2 4 (by decide) (by decide),
   windows_without_validation.2 7 0 5 0 (by decide) (by decide)⟩

/-- Claim C1: the ledger checks run in strict source order for every label
request: a satisfied existing-output check yields Skipped-Exists and stops; else
a satisfied pending-job check yields Skipped-Pending; else a satisfied capacity
check (3000 or more pending jobs) yields Skipped-QuotaCapped; and only when all
three fail does the request proceed to submission via the polygon export. -/
theorem check_order_strict (cfg : ExporterCfg) (today : Date) (bbox : BBox) (sD eD : Date) :
    (existsCheck cfg (generate_filename_and_desc bbox sD eD).1 = true →
      exportUsingPointAndDates cfg today bbox sD eD =
        some ([], Res.ok Outcome.skippedExists)) ∧
    (existsCheck cfg (generate_filename_and_desc bbox sD eD).1 = false →
      pendingCheck cfg (generate_filename_and_desc bbox sD eD).2 = true →
      exportUsingPointAndDates cfg today bbox sD eD =
        some ([], Res.ok Outcome.skippedPending)) ∧
    (existsCheck cfg (generate_filename_and_desc bbox sD eD).1 = false →
      pendingCheck cfg (generate_filename_and_desc bbox sD eD).2 = false →
      capacityCheck cfg = true →
      exportUsingPointAndDates cfg today bbox sD eD =
        some ([], Res.ok Outcome.skippedQuotaCapped)) ∧
    (existsCheck cfg (generate_filename_and_desc bbox sD eD).1 = false →
      pendingCheck cfg (generate_filename_and_desc bbox sD eD).2 = false →
      capacityCheck cfg = false →
      exportUsingPointAndDates cfg today bbox sD eD =
        (exportForPolygon today sD eD cfg.days_per_timestep
            (generate_filename_and_desc bbox sD eD).2).map
          (fun r => (r.1, r.2.map (fun _ => Outcome.submitted)))) := by
  refine ⟨fun h1 => ?_, fun h1 h2 => ?_, fun h1 h2 h3 => ?_, fun h1 h2 h3 => ?_⟩
  · simp [exportUsingPointAndDates, h1]
  · simp [exportUsingPointAndDates, h1, h2]
  · simp [exportUsingPointAndDates, h1, h2, h3]
  · simp [exportUsingPointAndDates, h1, h2, h3]

/-- Witness for check_order_strict: a request whose description is already in
the pending task list is skipped as pending. -/
theorem check_order_strict_witness :
    exportUsingPointAndDates
      ⟨"crop-mask-tifs", true, true, 30, [],
        [(generate_filename_and_desc ⟨mkRat 1 2, 1, 2, 3⟩ ⟨2020, 1, 1⟩ ⟨2020, 12, 31⟩).2]⟩
      ⟨2021, 6, 1⟩ ⟨mkRat 1 2, 1, 2, 3⟩ ⟨2020, 1, 1⟩ ⟨2020, 12, 31⟩ =
      some ([], Res.ok Outcome.skippedPending) :=
  (check_order_strict _ _ _ _ _).2.1 (by decide) (by decide)

/-- Claim C8 counterexample: with exactly 3000 pending jobs (the cap) a request
whose output already sits in storage yields Skipped-Exists, not
Skipped-QuotaCapped: the storage check is consulted first and wins, so capacity
skipping is not reached without consulting storage. -/
theorem quota_capped_storage_first :
    exportUsingPointAndDates
      ⟨"crop-mask-tifs", true, true, 30,
        ["tifs/" ++ (generate_filename_and_desc ⟨mkRat 1 2, 1, 2, 3⟩ ⟨2020, 1, 1⟩ ⟨2020, 12, 31⟩).1
            ++ ".tif"],
        List.replicate 3000 "t"⟩
      ⟨2021, 6, 1⟩ ⟨mkRat 1 2, 1, 2, 3⟩ ⟨2020, 1, 1⟩ ⟨2020, 12, 31⟩ =
      some ([], Res.ok Outcome.skippedExists) ∧
    3000 ≤ (List.replicate 3000 "t" : List String).length := by
  refine ⟨by decide, ?_⟩
  rw [List.length_replicate]

/-- Claim C8 as amended: when the pending task list has at least 3000 entries
(cap 3000), every request that passes the earlier storage and pending checks
yields Skipped-QuotaCapped; the storage check is consulted before capacity. -/
theorem quota_capped_after_prior_checks (cfg : ExporterCfg) (today : Date) (bbox : BBox)
    (sD eD : Date)
    (h1 : existsCheck cfg (generate_filename_and_desc bbox sD eD).1 = false)
    (h2 : pendingCheck cfg (generate_filename_and_desc bbox sD eD).2 = false)
    (h3 : cfg.check_ee = true) (h4 : 3000 ≤ cfg.ee_task_list.length) :
    exportUsingPointAndDates cfg today bbox sD eD =
      some ([], Res.ok Outcome.skippedQuotaCapped) := by
  have hc : capacityCheck cfg = true := by simp [capacityCheck, h3, h4]
  simp [exportUsingPointAndDates, h1, h2, hc]

/-- Witness for quota_capped_after_prior_checks at a full pending list. -/
theorem quota_capped_after_prior_checks_witness :
    exportUsingPointAndDates
      ⟨"crop-mask-tifs", true, true, 30, [], List.replicate 3000 "t"⟩
      ⟨2021, 6, 1⟩ ⟨mkRat 1 2, 1, 2, 3⟩ ⟨2020, 1, 1⟩ ⟨2020, 12, 31⟩ =
      some ([], Res.ok Outcome.skippedQuotaCapped) :=
  quota_capped_after_prior_checks _ _ _ _ _ (by decide)
    (by rw [pendingCheck, List.contains_replicate]; decide)
    (by decide) (by rw [List.length_replicate])

/-- Claim C6 counterexample: a request whose end date (2021-06-01) lies strictly
after the current date (2021-01-01) but whose output already exists in storage
is skipped as Skipped-Exists; it does not fail with InvalidDateRange, because
the ledger checks run before the date validation, so not every future-dated
request fails. -/
theorem future_end_date_skipped_exists :
    Date.toDays ⟨2021, 1, 1⟩ < Date.toDays ⟨2021, 6, 1⟩ ∧
    exportUsingPointAndDates
      ⟨"crop-mask-tifs", true, true, 30,
        ["tifs/" ++ (generate_filename_and_desc ⟨mkRat 1 2, 1, 2, 3⟩ ⟨2020, 6, 1⟩ ⟨2021, 6, 1⟩).1
            ++ ".tif"], []⟩
      ⟨2021, 1, 1⟩ ⟨mkRat 1 2, 1, 2, 3⟩ ⟨2020, 6, 1⟩ ⟨2021, 6, 1⟩ =
      some ([], Res.ok Outcome.skippedExists) := by
  exact ⟨by decide, by decide⟩

/-- Claim C6 as amended: a request that passes the three ledger checks and
whose end date lies strictly after the current date fails with InvalidDateRange
before any remote interaction: the recorded remote-call trace of the result is
empty. -/
theorem future_end_date_error_before_remote (cfg : ExporterCfg) (today : Date) (bbox : BBox)
    (sD eD : Date)
    (h1 : existsCheck cfg (generate_filename_and_desc bbox sD eD).1 = false)
    (h2 : pendingCheck cfg (generate_filename_and_desc bbox sD eD).2 = false)
    (h3 : capacityCheck cfg = false)
    (hf : today.toDays < eD.toDays) :
    exportUsingPointAndDates cfg today bbox sD eD =
      some ([], Res.error ExportError.invalidDateRange) := by
  simp [exportUsingPointAndDates, h1, h2, h3, exportForPolygon, hf, Res.map]

/-- Witness for future_end_date_error_before_remote: an empty ledger and an
end date five months in the future. -/
theorem future_end_date_error_before_remote_witness :
    exportUsingPointAndDates
      ⟨"crop-mask-tifs", true, true, 30, [], []⟩
      ⟨2021, 1, 1⟩ ⟨mkRat 1 2, 1, 2, 3⟩ ⟨2020, 6, 1⟩ ⟨2021, 6, 1⟩ =
      some ([], Res.error ExportError.invalidDateRange) :=
  future_end_date_error_before_remote _ _ _ _ _ (by decide) (by decide) (by decide) (by decide)

/-- Claim C3 counterexample: the generated description is not the identifier
with `.` and `=` stripped; the source replaces those characters with `-`
instead of removing them, so the two strings differ at this concrete input. -/
theorem desc_not_stripped :
    (generate_filename_and_desc ⟨mkRat 1 2, 1, 2, 3⟩ ⟨2021, 1, 1⟩ ⟨2021, 2, 1⟩).2 ≠
      specDescStripped ⟨mkRat 1 2, 1, 2, 3⟩ ⟨2021, 1, 1⟩ ⟨2021, 2, 1⟩ := by decide

/-- Claim C3 as amended: the export identifier is exactly
min_lat={v}_min_lon={v}_max_lat={v}_max_lon={v}_dates={start}_{end} with each
coordinate rounded to 4 decimal places and dates as YYYY-MM-DD, and the
remote-job description is that same string with each occurrence of `.` and `=`
replaced by `-` (not stripped) and the result truncated to 100 characters. -/
theorem filename_desc_format (bbox : BBox) (sD eD : Date) :
    generate_filename_and_desc bbox sD eD =
      (specIdentifier bbox sD eD,
       strTake 100 (replaceChar '=' '-' (replaceChar '.' '-' (specIdentifier bbox sD eD)))) :=
  rfl

/-- Claim C9 counterexample: two boxes whose min_lat values 0.00001 and 0.00009
agree in every decimal digit up to and including the fourth place (their
4-place truncations coincide and both are nonnegative) and whose other
coordinates are identical, yet the identifiers differ: rounding to 4 places
consults the fifth digit, giving min_lat=0.0 against min_lat=0.0001. -/
theorem digit_agreement_not_sufficient :
    floorScaled4 (mkRat 1 100000) = floorScaled4 (mkRat 9 100000) ∧
    (0 : ℚ) ≤ mkRat 1 100000 ∧ (0 : ℚ) ≤ mkRat 9 100000 ∧
    (mkRat 1 100000 : ℚ) ≠ mkRat 9 100000 ∧
    (generate_filename_and_desc ⟨mkRat 1 100000, 1, 2, 3⟩ ⟨2021, 1, 1⟩ ⟨2021, 2, 1⟩).1 ≠
      (generate_filename_and_desc ⟨mkRat 9 100000, 1, 2, 3⟩ ⟨2021, 1, 1⟩ ⟨2021, 2, 1⟩).1 := by
  refine ⟨by decide, by decide, by decide, by decide, by decide⟩

/-- Claim C9 as amended: two bounding boxes whose four coordinates each round
identically at 4 decimal places (Python round-half-even), with the same date
range, produce equal identifier strings; agreement of the printed decimal
digits through the fourth place alone is not sufficient, since the digits
beyond it determine the rounding. -/
theorem identifier_round_determinism (b1 b2 : BBox) (sD eD : Date)
    (h1 : round4 b1.min_lat = round4 b2.min_lat)
    (h2 : round4 b1.min_lon = round4 b2.min_lon)
    (h3 : round4 b1.max_lat = round4 b2.max_lat)
    (h4 : round4 b1.max_lon = round4 b2.max_lon) :
    (generate_filename_and_desc b1 sD eD).1 = (generate_filename_and_desc b2 sD eD).1 := by
  simp [generate_filename_and_desc, h1, h2, h3, h4]

/-- Witness for identifier_round_determinism: 0.12 and 0.12001 round alike. -/
theorem identifier_round_determinism_witness :
    (generate_filename_and_desc ⟨mkRat 12 100, 1, 2, 3⟩ ⟨2021, 1, 1⟩ ⟨2021, 2, 1⟩).1 =
      (generate_filename_and_desc ⟨mkRat 12001 100000, 1, 2, 3⟩ ⟨2021, 1, 1⟩ ⟨2021, 2, 1⟩).1 :=
  identifier_round_determinism _ _ _ _ (by decide) (by decide) (by decide) (by decide)

/-- Claim C4 counterexample: a task in state FAILED is neither queued nor
running, yet its description is included in the captured pending-job list,
because the source filters out only COMPLETED tasks; the queued-or-running
set of the specification is empty here. -/
theorem pending_includes_failed :
    get_ee_task_list [⟨"d", "FAILED"⟩] = ["d"] ∧
    specPendingJobs [⟨"d", "FAILED"⟩] = [] := by
  exact ⟨by decide, by decide⟩

/-- Claim C4 as amended: the captured pending-job list contains exactly the
descriptions of tasks whose state is not COMPLETED (so failed or cancelled
tasks are counted as pending too, not only queued or running ones). -/
theorem ee_task_list_characterization (tasks : List EETask) (d : String) :
    d ∈ get_ee_task_list tasks ↔ ∃ t ∈ tasks, t.description = d ∧ t.state ≠ "COMPLETED" := by
  simp only [get_ee_task_list, List.mem_map, List.mem_filter, bne_iff_ne, ne_eq]
  constructor
  · rintro ⟨t, ⟨ht, hs⟩, hd⟩
    exact ⟨t, ht, hd, hs⟩
  · rintro ⟨t, ht, hd, hs⟩
    exact ⟨t, ⟨ht, hs⟩, hd⟩

/-- Claim C7 counterexample: with invalid credentials the run logs the
authentication error and still fully processes the request (here skipped as
pending); the run is not aborted and the failure is not surfaced. -/
theorem auth_failure_run_continues :
    labelExporterRun false
      ⟨"crop-mask-tifs", true, true, 30, [],
        [(generate_filename_and_desc ⟨mkRat 1 2, 1, 2, 3⟩ ⟨2020, 1, 1⟩ ⟨2020, 12, 31⟩).2]⟩
      ⟨2021, 6, 1⟩ [(⟨mkRat 1 2, 1, 2, 3⟩, ⟨2020, 1, 1⟩, ⟨2020, 12, 31⟩)] =
      ([LogEvent.authError], [some ([], Res.ok Outcome.skippedPending)]) := by decide

/-- Claim C7 as amended: an authentication failure at initialization is caught
inside check_earthengine_auth and only logged; the scheduling run continues
and every request is processed exactly as it would be with valid
credentials. -/
theorem auth_failure_logged_only (authOk : Bool) (cfg : ExporterCfg) (today : Date)
    (reqs : List (BBox × Date × Date)) :
    (labelExporterRun authOk cfg today reqs).2 = (labelExporterRun true cfg today reqs).2 ∧
    (labelExporterRun authOk cfg today reqs).1 =
      (if authOk then [] else [LogEvent.authError]) := by
  cases authOk <;> simp [labelExporterRun, check_earthengine_auth, eeInit]

/-- Claim C10: folding combine_bands over an ordered nonempty sequence of
per-window mosaics, each containing the fixed band set, yields a single image
whose band list is the concatenation of one copy of the band set per window in
window order, hence with length len(window_mosaics) * bands_per_step. -/
theorem combine_bands_concatenation (bands : List String) (imgs : List (List String))
    (hne : imgs ≠ [])
    (hall : ∀ img ∈ imgs, ∀ b ∈ bands, b ∈ img) :
    iterateCombine bands imgs = some (List.flatten (List.replicate imgs.length bands)) ∧
    (List.flatten (List.replicate imgs.length bands)).length = imgs.length * bands.length := by
  constructor
  · match imgs, hne with
    | hd :: tl, _ =>
      unfold iterateCombine
      simp only [List.foldl_cons]
      rw [show combine_bands bands hd none = bands from by
            simp [combine_bands, eeSelect_all bands hd (hall hd (by simp))]]
      rw [foldl_combine bands tl bands (fun img h => hall img (by simp [h]))]
      simp [List.replicate_succ]
  · simp [List.length_flatten, List.map_replicate, List.sum_replicate, smul_eq_mul,
      Nat.mul_comm]

/-- Witness for combine_bands_concatenation on two window mosaics with two
bands each. -/
theorem combine_bands_concatenation_witness :
    iterateCombine ["a", "b"] [["b", "a"], ["a", "b", "c"]] = some ["a", "b", "a", "b"] ∧
    (List.flatten (List.replicate 2 ["a", "b"])).length = 2 * 2 := by
  have h := combine_bands_concatenation ["a", "b"] [["b", "a"], ["a", "b", "c"]]
    (by decide) (by decide)
  exact ⟨h.1.trans (by decide), h.2⟩

end CropMask
